import Mathlib

/-!
Shallow embedding of the badger log-manager and key-registry core
(src/log_manager.go, src/key_registry.go), together with theorems that
settle the frozen claims about the natural-language specification.

Machine integers are modelled as Nat (offsets, lengths, ids, bytes) and
Int (unix seconds).  Fallible operations return Option or Except.
Pieces of the repository that are referenced but not contained in the
two source files (the record codec, y-package helpers, protobuf
marshalling) are modelled from the spec; each such definition says so in
its doc comment.
-/

/-- Meta bit marking an entry as part of a transaction batch.
Modelled from the spec: the meta bitset has a TXN bit (value as in the
badger source tree, 1 <<< 6). -/
def bitTxn : Nat := 64

/-- Meta bit marking the batch-terminator entry whose value is the ASCII
commit timestamp.  Modelled from the spec (1 <<< 7 in the badger tree). -/
def bitFinTxn : Nat := 128

/-- A decoded log entry, mirroring the fields of the Go Entry struct used
by src/log_manager.go: Key, Value, meta, UserMeta, ExpiresAt, offset, hlen.
Bytes are Nats below 256; offset is the record's position in its file. -/
structure Entry where
  key : List Nat
  value : List Nat
  meta : Nat
  userMeta : Nat
  expiresAt : Nat
  offset : Nat
  hlen : Nat
deriving DecidableEq, Repr

/-- Framed length of an entry on disk: header length + key + value + 4
CRC bytes (crc32.Size = 4), as computed at src/log_manager.go:482. -/
def entryLen (e : Entry) : Nat :=
  e.hlen + e.key.length + e.value.length + 4

/-- Commit timestamp of a key.  Modelled from the spec (y.ParseTs is not
under src/): the last 8 bytes of the key are the commit_ts as a
big-endian u64; keys shorter than 8 bytes yield 0. -/
def parseTs (key : List Nat) : Nat :=
  if key.length < 8 then 0
  else (key.drop (key.length - 8)).foldl (fun a b => a * 256 + b) 0

/-- Go strconv.ParseUint(s, 10, 64) on a byte string: some n for a
non-empty all-digit string whose value fits in a u64, none otherwise. -/
def parseDecimal (bs : List Nat) : Option Nat :=
  if bs = [] then none
  else if bs.all (fun b => 48 ≤ b ∧ b ≤ 57) then
    let n := bs.foldl (fun a b => a * 10 + (b - 48)) 0
    if n < 2 ^ 64 then some n else none
  else none

/-- Value pointer (fid, offset, len), the address stored in the LSM. -/
structure VP where
  fid : Nat
  offset : Nat
  len : Nat
deriving DecidableEq, Repr

/-- The zero valuePointer{} used for WAL-resident entries. -/
def emptyVP : VP := ⟨0, 0, 0⟩

/-- One outcome of safeRead.Entry at src/log_manager.go:477.  The decode
layer itself (safeRead) is not under src/, so a log file is modelled by
its stream of decode outcomes: a successfully decoded entry, an
errTruncate, or some other error; end of stream is io.EOF. -/
inductive ReadRes where
  | entry (e : Entry)
  | truncErr
  | otherErr
deriving DecidableEq, Repr

/-- State of a logIterator (src/log_manager.go:449): the remaining decode
stream, the entryReader's recordOffset, and validOffset (position just
past the last successfully matched FIN_TXN entry; Go zero value 0). -/
structure LogIterator where
  recs : List ReadRes
  recordOffset : Nat
  validOffset : Nat
deriving DecidableEq, Repr

/-- Result of one iterateEntries call: a transaction batch with its
commit_ts, or io.EOF, or errTruncate, or another error. -/
inductive IterOut where
  | batch (entries : List Entry) (commitTs : Nat)
  | eof
  | trunc
  | err
deriving DecidableEq, Repr

/-- Loop body of logIterator.iterateEntries (src/log_manager.go:473-515).
Arguments: remaining decode stream, recordOffset, validOffset,
accumulated entries, accumulated commitTs. -/
def iterGo : List ReadRes → Nat → Nat → List Entry → Nat → IterOut × LogIterator
  | [], ro, vo, _, _ => (IterOut.eof, ⟨[], ro, vo⟩)
  | ReadRes.truncErr :: rest, ro, vo, _, _ => (IterOut.trunc, ⟨rest, ro, vo⟩)
  | ReadRes.otherErr :: rest, ro, vo, _, _ => (IterOut.err, ⟨rest, ro, vo⟩)
  | ReadRes.entry e :: rest, ro, vo, acc, cts =>
    let ro' := ro + entryLen e
    if e.meta &&& bitTxn > 0 then
      let txnTs := parseTs e.key
      let cts' := if cts = 0 then txnTs else cts
      if cts' ≠ txnTs then (IterOut.trunc, ⟨rest, ro', vo⟩)
      else iterGo rest ro' vo (acc ++ [e]) cts'
    else if e.meta &&& bitFinTxn > 0 then
      match parseDecimal e.value with
      | some txnTs =>
        if cts ≠ txnTs then (IterOut.trunc, ⟨rest, ro', vo⟩)
        else (IterOut.batch acc cts, ⟨rest, ro', ro'⟩)
      | none => (IterOut.trunc, ⟨rest, ro', vo⟩)
    else iterGo rest ro' vo acc cts

/-- logIterator.iterateEntries: returns one batch (or error) and the
iterator's successor state. -/
def iterateEntries (it : LogIterator) : IterOut × LogIterator :=
  iterGo it.recs it.recordOffset it.validOffset [] 0

/-- WAL-id filter loop of openLogManager (src/log_manager.go:67-85).
Accumulator: (filteredWALIDs, ids passed to os.Remove, maxWalID). -/
def walFilterStep (walhead : Nat) (readOnly : Bool)
    (acc : List Nat × List Nat × Nat) (fid : Nat) :
    List Nat × List Nat × Nat :=
  let maxW := if fid > acc.2.2 then fid else acc.2.2
  if fid > walhead then
    (acc.1, if readOnly then acc.2.1 else acc.2.1 ++ [fid], maxW)
  else (acc.1 ++ [fid], acc.2.1, maxW)

/-- The full filter pass of openLogManager over the enumerated WAL file
ids, in enumeration order. -/
def filterWALIDs (walFiles : List Nat) (walhead : Nat) (readOnly : Bool) :
    List Nat × List Nat × Nat :=
  walFiles.foldl (walFilterStep walhead readOnly) ([], [], 0)

/-- An entry submitted to logManager.write, with its request's skipVlog
flag. -/
structure WEntry where
  ent : Entry
  skipVlog : Bool
deriving DecidableEq, Repr

/-- Buffers and pointers produced while processing one write batch:
the pointers appended to b.Ptrs, and the entries encoded into the WAL
buffer and the vlog buffer (in order). -/
structure WriteState where
  ptrs : List VP
  walBuf : List Entry
  vlogBuf : List Entry
deriving DecidableEq, Repr

/-- Byte length of a buffer holding encoded entries.  Modelled from the
spec: logFile.encode (not under src/) appends the framed entry, writing
entryLen bytes. -/
def bufLen (buf : List Entry) : Nat := (buf.map entryLen).sum

/-- Per-entry body of the txnEntries loop in logManager.write
(src/log_manager.go:527-557), including the absence of any continue
after the skipVlog append.  walOff and vlogOff are wal.fileOffset() and
vlog.fileOffset(); threshold is the LSM routing cutoff
(db.shouldWriteValueToLSM is not under src/; modelled from the spec as
value size ≤ value_threshold). -/
def writeEntryStep (_walOff vlogOff vlogFid threshold : Nat)
    (st : WriteState) (w : WEntry) : WriteState :=
  let st1 := if w.skipVlog then { st with ptrs := st.ptrs ++ [emptyVP] } else st
  if w.ent.value.length ≤ threshold then
    { st1 with walBuf := st1.walBuf ++ [w.ent], ptrs := st1.ptrs ++ [emptyVP] }
  else
    let off := vlogOff + bufLen st1.vlogBuf
    { st1 with vlogBuf := st1.vlogBuf ++ [w.ent],
               ptrs := st1.ptrs ++ [⟨vlogFid, off, entryLen w.ent⟩] }

/-- Processing of one request batch by logManager.write: the txnEntries
loop followed by the two end-marker appends (src/log_manager.go:526-575). -/
def writeBatch (walOff vlogOff vlogFid threshold : Nat)
    (txnEntries : List WEntry) (endWal endVlog : Entry) : WriteState :=
  let st := txnEntries.foldl (writeEntryStep walOff vlogOff vlogFid threshold)
    ⟨[], [], []⟩
  let st := { st with walBuf := st.walBuf ++ [endWal], ptrs := st.ptrs ++ [emptyVP] }
  { st with vlogBuf := st.vlogBuf ++ [endVlog], ptrs := st.ptrs ++ [emptyVP] }

/-- Association-list lookup, modelling a Go map read m[k]. -/
def assocLookup {α : Type} : List (Nat × α) → Nat → Option α
  | [], _ => none
  | (k', v') :: rest, k => if k' = k then some v' else assocLookup rest k

/-- Association-list store, modelling a Go map write m[k] = v: replaces
an existing binding, otherwise appends. -/
def assocInsert {α : Type} : List (Nat × α) → Nat → α → List (Nat × α)
  | [], k, v => [(k, v)]
  | (k', v') :: rest, k, v =>
    if k' = k then (k, v) :: rest else (k', v') :: assocInsert rest k v

/-- State of the log manager consulted by Read (src/log_manager.go:590):
maxVlogID, the active vlog's fileOffset(), and vlogFileMap with each
file's raw bytes. -/
structure LMReadState where
  maxVlogID : Nat
  vlogOffset : Nat
  vlogFileMap : List (Nat × List Nat)

/-- Errors surfaced by Read: the InvalidPointer error for offsets at or
past the active vlog's write cursor, and ErrRetry for a missing file. -/
inductive ReadError where
  | invalidPointer
  | retry
deriving DecidableEq, Repr

/-- logManager.Read (src/log_manager.go:590-615): the guard rejecting
pointers into the currently-active vlog at or beyond fileOffset(), then
the vlogFileMap lookup (ErrRetry when absent), then the record slice.
The payload decode and decryption (logFile.read, header.Decode,
decryptKV) are not under src/; modelled from the spec as returning the
record slice addressed by the pointer. -/
def Read (st : LMReadState) (vp : VP) : Except ReadError (List Nat) :=
  if vp.fid = st.maxVlogID ∧ st.vlogOffset ≤ vp.offset then
    Except.error ReadError.invalidPointer
  else
    match assocLookup st.vlogFileMap vp.fid with
    | none => Except.error ReadError.retry
    | some bytes => Except.ok ((bytes.drop vp.offset).take vp.len)

/-- A data key, mirroring pb.DataKey: KeyID, Data (AES key material),
CreatedAt (unix seconds), IV. -/
structure DataKey where
  keyID : Nat
  data : List Nat
  createdAt : Int
  iv : List Nat
deriving DecidableEq, Repr

/-- In-memory key registry (src/key_registry.go:32-39).  The Go map
dataKeys is modelled as an association list whose order is the (in Go,
unspecified) traversal order. -/
structure KeyRegistry where
  dataKeys : List (Nat × DataKey)
  lastCreated : Int
  nextKeyID : Nat
  storageKey : List Nat
deriving DecidableEq, Repr

/-- The sanity text "!Badger!Registry!" (src/key_registry.go:29) as
bytes. -/
def sanityText : List Nat :=
  [33, 66, 97, 100, 103, 101, 114, 33, 82, 101, 103, 105, 115, 116, 114, 121, 33]

/-- Keystream bytes for the XOR cipher.  Modelled from the spec:
y.XORBlock (not under src/) is an AES-CTR keystream XOR; the concrete
stream is abstracted as a deterministic function of key and IV. -/
def keystream (key iv : List Nat) (n : Nat) : List Nat :=
  (List.range n).map (fun i => (key.sum + iv.sum + i) % 256)

/-- y.XORBlock: XOR the data with the keystream derived from (key, iv);
fails (CryptoError) unless the key is a supported AES size. -/
def xorBlock (key iv data : List Nat) : Option (List Nat) :=
  if key.length = 16 ∨ key.length = 24 ∨ key.length = 32 then
    some (List.zipWith Nat.xor data (keystream key iv data.length))
  else none

/-- Registry file content at record granularity: the 16-byte IV, the
(possibly encrypted) sanity block, then the stored DataKey records with
Data encrypted when a storage key is set.  The [len][crc] framing and
protobuf marshalling are not under src/; modelled from the spec as
faithful (records round-trip and their CRCs verify). -/
structure RegFile where
  iv : List Nat
  sanity : List Nat
  records : List DataKey
deriving DecidableEq, Repr

/-- Errors raised while opening or writing the registry. -/
inductive RegErr where
  | encryptionKeyMismatch
  | cryptoErr
deriving DecidableEq, Repr

/-- Record written by storeDataKey (src/key_registry.go:261-292): with a
storage key set, Data is XOR-encrypted under (storageKey, k.IV) before
marshalling. -/
def storeRecord (sk : List Nat) (k : DataKey) : Option DataKey :=
  if sk = [] then some k
  else (xorBlock sk k.iv k.data).map (fun d => { k with data := d })

/-- RewriteRegistry (src/key_registry.go:156-203): write the fresh IV,
the (possibly encrypted) sanity text, and every in-memory data key in
map-traversal order; the temp-file/rename dance is modelled as producing
the resulting file content. -/
def RewriteRegistry (reg : KeyRegistry) (sk ivNew : List Nat) : Option RegFile :=
  let sanE := if sk = [] then some sanityText else xorBlock sk ivNew sanityText
  match sanE with
  | none => none
  | some s =>
    match (reg.dataKeys.map Prod.snd).mapM (storeRecord sk) with
    | none => none
    | some recs => some ⟨ivNew, s, recs⟩

/-- Per-record body of the read loop in buildKeyRegistry
(src/key_registry.go:109-146): decrypt Data in place, track nextKeyID
and lastCreated as running maxima, then store the record under
kr.nextKeyID (exactly as the source does). -/
def buildStep (sk : List Nat) (st : KeyRegistry) (dk : DataKey) :
    Except RegErr KeyRegistry :=
  let dd := if sk = [] then some dk.data else xorBlock sk dk.iv dk.data
  match dd with
  | none => Except.error RegErr.cryptoErr
  | some d =>
    let st := if dk.keyID > st.nextKeyID then { st with nextKeyID := dk.keyID } else st
    let st := if dk.createdAt > st.lastCreated then { st with lastCreated := dk.createdAt } else st
    Except.ok { st with dataKeys := assocInsert st.dataKeys st.nextKeyID { dk with data := d } }

/-- buildKeyRegistry (src/key_registry.go:82-153): check the sanity
block under the storage key, then fold the record loop over the file's
records starting from newKeyRegistry. -/
def buildKeyRegistry (f : RegFile) (sk : List Nat) : Except RegErr KeyRegistry :=
  let sanE := if sk = [] then some f.sanity else xorBlock sk f.iv f.sanity
  match sanE with
  | none => Except.error RegErr.cryptoErr
  | some s =>
    if s ≠ sanityText then Except.error RegErr.encryptionKeyMismatch
    else f.records.foldlM (buildStep sk) ⟨[], 0, 0, sk⟩

deriving instance DecidableEq for Except

/-- Result of getDataKey: the returned key (or error), the registry
state after the call, and the records appended to the open registry
file, each tagged with whether it was fsynced. -/
structure GetKeyOut where
  res : Except RegErr (Option DataKey)
  kr : KeyRegistry
  file : List (DataKey × Bool)
deriving DecidableEq, Repr

/-- KeyRegistry.getDataKey (src/key_registry.go:216-254).  now is the
current unix time; ivNew the result of y.GenereateIV; rnd the stream
rand.Read draws from (the code takes len(storageKey) bytes of it).  The
rotation test diff.Hours()/24 < RotationPeriod is (now - lastCreated)
seconds < 10 days = 864000.  On rotation the new key is appended to the
registry file by storeDataKey with sync = true, then recorded in memory
with its decrypted material (dk.Data = k). -/
def getDataKey (kr : KeyRegistry) (file : List (DataKey × Bool))
    (now : Int) (ivNew rnd : List Nat) : GetKeyOut :=
  if kr.storageKey = [] then ⟨Except.ok none, kr, file⟩
  else if now - kr.lastCreated < 864000 then
    ⟨Except.ok (assocLookup kr.dataKeys kr.nextKeyID), kr, file⟩
  else
    let nid := kr.nextKeyID + 1
    let k := rnd.take kr.storageKey.length
    match xorBlock kr.storageKey ivNew k with
    | none => ⟨Except.error RegErr.cryptoErr, { kr with nextKeyID := nid }, file⟩
    | some enc =>
      ⟨Except.ok (some ⟨nid, k, now, ivNew⟩),
       { kr with nextKeyID := nid, lastCreated := now,
                 dataKeys := assocInsert kr.dataKeys nid ⟨nid, k, now, ivNew⟩ },
       file ++ [(⟨nid, enc, now, ivNew⟩, true)]⟩

/-- A log file as seen by the replayer.  logFile open/mmap/decode are
not under src/; modelled from the spec: a file is characterized by its
physical size (fileOffset() of a freshly opened file equals it, and
fd.Stat().Size() returns it) and by the stream of decode outcomes
produced from each start offset. -/
structure ModelFile where
  recsFrom : Nat → List ReadRes
  size : Nat

/-- logFile.bootstrap, modelled from the spec: writes a fresh 20-byte
header and sets writable_offset = 20, leaving no entries. -/
def bootstrapFile (_f : ModelFile) : ModelFile :=
  ⟨fun _ => [], 20⟩

/-- The two log families living in the value directory. -/
inductive Family where
  | walF
  | vlogF
deriving DecidableEq, Repr

/-- Errors returned (as Go errors) by the replayer. -/
inductive ErrKind where
  | openFail (fam : Family) (fid : Nat)
  | statFail
  | replayErr
deriving DecidableEq, Repr

/-- How a replay run ends: normal return, a returned error, a Go
panic (explicit panic call or out-of-range slice index), or exhaustion
of the model's fuel. -/
inductive ReplayRes where
  | ok
  | fail (e : ErrKind)
  | panicked
  | fuelOut
deriving DecidableEq, Repr

/-- Observable outcome of a replay run: the result, the (family, fid)
pairs whose files the replayer attempted to open, and the (entry,
valuePointer) pairs passed to the replayFn callback, in order.  The
callback is modelled as total. -/
structure ReplayOut where
  res : ReplayRes
  opens : List (Family × Nat)
  replayed : List (Entry × VP)
deriving DecidableEq, Repr

/-- Input of logReplayer.replay: the filtered, sorted id lists and the
vlog head pointer. -/
structure ReplayInput where
  walIDs : List Nat
  vlogIDs : List Nat
  vhead : VP

/-- The value directory: which WAL and vlog files exist, by id. -/
structure FS where
  walFiles : Nat → Option ModelFile
  vlogFiles : Nat → Option ModelFile

/-- Main loop of logReplayer.replay (src/log_manager.go:315-446),
translated branch by branch, including:
the errTruncate check, then the WAL io.EOF branch, then the vlog io.EOF
branch, then the generic error branch, then the commit-ts comparison;
every break with truncateNeeded = true ends in the post-loop panic
(src/log_manager.go:443-445), modelled as ReplayRes.panicked;
the WAL advance declares a new shadowed walFile (`:=` at line 344), so
the outer walFile stays the closed old file and a later Stat of it fails
(tracked by walClosed);
the guards `len(ids) < currentIndex` are kept as written, so advancing
past the last id indexes out of range, a Go runtime panic;
the vlog advance resolves the next fid from walIDs (lines 387-388) and
then calls iterateEntries on walIterator (line 402), exactly as the
source does;
after a matched batch both next batches are read from walIterator
(lines 439-440). -/
def replayLoop (inp : ReplayInput) (fs : FS) :
    Nat → Nat → Nat → ModelFile → Bool → ModelFile → Nat →
    LogIterator → LogIterator → IterOut → IterOut →
    List (Family × Nat) → List (Entry × VP) → ReplayOut
  | 0, _, _, _, _, _, _, _, _, _, _, opens, rpl =>
    ⟨ReplayRes.fuelOut, opens, rpl⟩
  | fuel + 1, walIdx, vlogIdx, walFile, walClosed, vlogFile, vlogFid,
    walIt, vlogIt, walOut, vlogOut, opens, rpl =>
    if walOut = IterOut.trunc ∨ vlogOut = IterOut.trunc then
      ⟨ReplayRes.panicked, opens, rpl⟩
    else if walOut = IterOut.eof then
      if walClosed then ⟨ReplayRes.fail ErrKind.statFail, opens, rpl⟩
      else if walFile.size ≠ walIt.validOffset then ⟨ReplayRes.panicked, opens, rpl⟩
      else if inp.walIDs.length < walIdx then ⟨ReplayRes.ok, opens, rpl⟩
      else
        match inp.walIDs.get? (walIdx + 1) with
        | none => ⟨ReplayRes.panicked, opens, rpl⟩
        | some wfid =>
          let opens2 := opens ++ [(Family.walF, wfid)]
          match fs.walFiles wfid with
          | none => ⟨ReplayRes.fail (ErrKind.openFail Family.walF wfid), opens2, rpl⟩
          | some wf =>
            if wf.size < 20 then ⟨ReplayRes.panicked, opens2, rpl⟩
            else
              let p := iterateEntries ⟨wf.recsFrom 20, 20, 0⟩
              replayLoop inp fs fuel (walIdx + 1) vlogIdx walFile true vlogFile
                vlogFid p.2 vlogIt p.1 vlogOut opens2 rpl
    else if vlogOut = IterOut.eof then
      if vlogFile.size ≠ vlogIt.validOffset then ⟨ReplayRes.panicked, opens, rpl⟩
      else if inp.vlogIDs.length < vlogIdx then ⟨ReplayRes.ok, opens, rpl⟩
      else
        match inp.walIDs.get? (vlogIdx + 1) with
        | none => ⟨ReplayRes.panicked, opens, rpl⟩
        | some nfid =>
          let opens2 := opens ++ [(Family.vlogF, nfid)]
          match fs.vlogFiles nfid with
          | none => ⟨ReplayRes.fail (ErrKind.openFail Family.vlogF nfid), opens2, rpl⟩
          | some vf =>
            if vf.size < 20 then ⟨ReplayRes.panicked, opens2, rpl⟩
            else
              let vit0 : LogIterator := ⟨vf.recsFrom 20, 20, 0⟩
              let p := iterateEntries walIt
              replayLoop inp fs fuel walIdx (vlogIdx + 1) walFile walClosed vf
                nfid p.2 vit0 walOut p.1 opens2 rpl
    else
      match walOut, vlogOut with
      | IterOut.batch wes wts, IterOut.batch ves vts =>
        if vts ≠ wts then ⟨ReplayRes.panicked, opens, rpl⟩
        else
          let rpl2 := rpl ++ wes.map (fun e => (e, emptyVP))
            ++ ves.map (fun e => (e, ⟨vlogFid, e.offset, entryLen e⟩))
          let pw := iterateEntries walIt
          let pv := iterateEntries pw.2
          replayLoop inp fs fuel walIdx vlogIdx walFile walClosed vlogFile
            vlogFid pv.2 vlogIt pw.1 pv.1 opens rpl2
      | _, _ => ⟨ReplayRes.fail ErrKind.replayErr, opens, rpl⟩

/-- logReplayer.replay (src/log_manager.go:245-447): the early return
for an empty walIDs list, the opening and (if shorter than the 20-byte
header) bootstrapping of the first vlog and WAL files, the first
iterateEntries call on each iterator, and the main loop.  Indexing
vlogIDs[0] with an empty slice is a Go runtime panic. -/
def replay (fuel : Nat) (inp : ReplayInput) (fs : FS) : ReplayOut :=
  match inp.walIDs with
  | [] => ⟨ReplayRes.ok, [], []⟩
  | w0 :: _ =>
    match inp.vlogIDs.get? 0 with
    | none => ⟨ReplayRes.panicked, [], []⟩
    | some v0 =>
      let opens1 := [(Family.vlogF, v0)]
      match fs.vlogFiles v0 with
      | none => ⟨ReplayRes.fail (ErrKind.openFail Family.vlogF v0), opens1, []⟩
      | some vfRaw =>
        let vf := if vfRaw.size < 20 then bootstrapFile vfRaw else vfRaw
        let vOff := if v0 = inp.vhead.fid then inp.vhead.offset else 20
        let vit : LogIterator := ⟨vf.recsFrom vOff, vOff, 0⟩
        let opens2 := opens1 ++ [(Family.walF, w0)]
        match fs.walFiles w0 with
        | none => ⟨ReplayRes.fail (ErrKind.openFail Family.walF w0), opens2, []⟩
        | some wfRaw =>
          let wf := if wfRaw.size < 20 then bootstrapFile wfRaw else wfRaw
          let wit : LogIterator := ⟨wf.recsFrom 20, 20, 0⟩
          let pw := iterateEntries wit
          let pv := iterateEntries vit
          replayLoop inp fs fuel 0 0 wf false vf v0 pw.2 pv.2 pw.1 pv.1 opens2 []

/-- A TXN entry with commit_ts t (t < 256) at offset off, 1-byte value
v, 2-byte header: framed length 16. -/
def tE (t off v : Nat) : Entry :=
  ⟨[107, 0, 0, 0, 0, 0, 0, 0, t], [v], 64, 0, 0, off, 2⟩

/-- A FIN_TXN entry whose value is the ASCII decimal ds, at offset off:
framed length 13 + ds.length (17 for a two-digit timestamp). -/
def fE (ds : List Nat) (off : Nat) : Entry :=
  ⟨[107, 0, 0, 0, 0, 0, 0, 0, 0], ds, 128, 0, 0, off, 2⟩

/-- A log file holding one complete batch: a TXN entry with commit_ts t
at offset 20 and the matching FIN_TXN terminator at 36; clean end at the
physical size 53. -/
def oneBatchFile (t : Nat) (ds : List Nat) (v : Nat) : ModelFile :=
  ⟨fun o => if o = 20 then [ReadRes.entry (tE t 20 v), ReadRes.entry (fE ds 36)] else [], 53⟩

/-- A log file holding two complete batches (commit_ts 10 then 20) with
clean end at the physical size 86. -/
def twoBatchFile (v1 v2 : Nat) : ModelFile :=
  ⟨fun o => if o = 20 then
      [ReadRes.entry (tE 10 20 v1), ReadRes.entry (fE [49, 48] 36),
       ReadRes.entry (tE 20 53 v2), ReadRes.entry (fE [50, 48] 69)]
    else [], 86⟩

/-- C1: the claim reads: on open, openLogManager keeps for replay
exactly the WAL ids greater than wal_head and deletes (when not
read-only) exactly the ids less than or equal to wal_head.  Evaluating
the code's filter on WAL files {1, 2} with wal_head = 1, not read-only:
the code keeps id 1 (which is ≤ wal_head) and removes id 2 (which is >
wal_head) — the reverse of the claim; the guard at
src/log_manager.go:74 tests fid > walhead around the delete instead of
the keep. -/
theorem c1_wal_filter_eval : filterWALIDs [1, 2] 1 false = ([1], [2], 2) := by
  decide

/-- C5: the claim reads: an entry with skip_vlog set gets exactly one
empty value pointer and is not encoded into either buffer.  Evaluating
the loop body on a skip_vlog entry with a 1-byte value and threshold 64:
the code appends the empty pointer, then (missing continue at
src/log_manager.go:529-531) falls through, encodes the entry into the
WAL buffer and appends a second empty pointer. -/
theorem c5_skipvlog_eval :
    writeEntryStep 20 20 1 64 ⟨[], [], []⟩ ⟨tE 10 0 99, true⟩ =
      ⟨[emptyVP, emptyVP], [tE 10 0 99], []⟩ := by
  decide

/-- C8: for every pointer whose fid equals the current maximum vlog id
and whose offset is at or past the active vlog's fileOffset(), Read
fails with the InvalidPointer error (src/log_manager.go:592-597). -/
theorem c8_read_rejects_active_tail (st : LMReadState) (vp : VP)
    (hfid : vp.fid = st.maxVlogID) (hoff : st.vlogOffset ≤ vp.offset) :
    Read st vp = Except.error ReadError.invalidPointer := by
  simp [Read, hfid, hoff]

/-- Witness for C8 at a concrete state, with the pointer offset exactly
at fileOffset(). -/
theorem c8_read_rejects_active_tail_witness :
    (VP.fid ⟨3, 100, 7⟩ = LMReadState.maxVlogID ⟨3, 100, [(3, [1, 2, 3])]⟩) ∧
    (LMReadState.vlogOffset ⟨3, 100, [(3, [1, 2, 3])]⟩ ≤ VP.offset ⟨3, 100, 7⟩) ∧
    Read ⟨3, 100, [(3, [1, 2, 3])]⟩ ⟨3, 100, 7⟩ =
      Except.error ReadError.invalidPointer :=
  ⟨rfl, le_refl 100,
    c8_read_rejects_active_tail ⟨3, 100, [(3, [1, 2, 3])]⟩ ⟨3, 100, 7⟩ rfl (le_refl 100)⟩

/-- C9: during iterateEntries, a successfully decoded entry whose meta
has neither the TXN bit nor the FIN_TXN bit set is silently dropped: the
iteration continues on the remaining stream with the same accumulated
batch, the same accumulated commit_ts and the same validOffset, and only
the record offset advances by the entry's framed length
(src/log_manager.go:476-513). -/
theorem c9_nontxn_entry_dropped (e : Entry) (rest : List ReadRes)
    (ro vo : Nat) (acc : List Entry) (cts : Nat)
    (h1 : e.meta &&& bitTxn = 0) (h2 : e.meta &&& bitFinTxn = 0) :
    iterGo (ReadRes.entry e :: rest) ro vo acc cts =
      iterGo rest (ro + entryLen e) vo acc cts := by
  simp [iterGo, h1, h2]

/-- Witness for C9 on a concrete meta-0 entry. -/
theorem c9_nontxn_entry_dropped_witness :
    ((Entry.meta ⟨[107], [99], 0, 0, 0, 20, 2⟩) &&& bitTxn = 0) ∧
    ((Entry.meta ⟨[107], [99], 0, 0, 0, 20, 2⟩) &&& bitFinTxn = 0) ∧
    iterGo (ReadRes.entry ⟨[107], [99], 0, 0, 0, 20, 2⟩ :: []) 20 0 [] 0 =
      iterGo [] (20 + entryLen ⟨[107], [99], 0, 0, 0, 20, 2⟩) 0 [] 0 :=
  ⟨by decide, by decide,
    c9_nontxn_entry_dropped ⟨[107], [99], 0, 0, 0, 20, 2⟩ [] 20 0 [] 0
      (by decide) (by decide)⟩

/-- C10: if the filtered WAL id list handed to the replayer is empty,
replay returns success immediately (src/log_manager.go:256-258): no file
of either family is opened and no entry is replayed, whatever the vlog
id list, the vlog head and the directory contents. -/
theorem c10_empty_wal_returns_immediately (fuel : Nat) (vlogIDs : List Nat)
    (vhead : VP) (fs : FS) :
    replay fuel ⟨[], vlogIDs, vhead⟩ fs = ⟨ReplayRes.ok, [], []⟩ := rfl

/-- C2: the claim reads: in every iteration of the replay loop the WAL
batch comes from the WAL iterator and the vlog batch from the vlog
iterator.  Evaluating replay on walIDs = [1], vlogIDs = [1] where both
files hold the same two complete commit-matched batches (ts 10 then 20):
after the first matched batch, src/log_manager.go:440 reads the second
"vlog" batch from walIterator, draining the WAL stream; the next
iteration sees a spurious vlog io.EOF with 33 unread vlog bytes, decides
truncation is needed, and replay panics — where lockstep iteration of
the two streams would have replayed both files completely. -/
theorem c2_lockstep_eval :
    replay 10 ⟨[1], [1], ⟨0, 0, 0⟩⟩
      ⟨fun f => if f = 1 then some (twoBatchFile 101 102) else none,
       fun f => if f = 1 then some (twoBatchFile 201 202) else none⟩ =
      ⟨ReplayRes.panicked, [(Family.vlogF, 1), (Family.walF, 1)],
       [(tE 10 20 101, emptyVP), (tE 10 20 201, ⟨1, 20, 16⟩)]⟩ := by
  decide

/-- C3: the claim reads: on vlog io.EOF with size = valid_offset, the
replayer advances to the next id in the vlog family.  Evaluating replay
on walIDs = [1, 2], vlogIDs = [1, 5] where vlog 1 ends cleanly after one
batch, vlog 5 exists (holding the matching second batch) and no vlog 2
exists: the code resolves the next fid as walIDs[1] = 2
(src/log_manager.go:387-388), attempts to open the non-existent vlog
file 2 and fails, never touching vlog 5. -/
theorem c3_vlog_advance_eval :
    replay 10 ⟨[1, 2], [1, 5], ⟨0, 0, 0⟩⟩
      ⟨fun f => if f = 1 then some (twoBatchFile 101 102)
                else if f = 2 then some (oneBatchFile 30 [51, 48] 105) else none,
       fun f => if f = 1 then some (oneBatchFile 10 [49, 48] 203)
                else if f = 5 then some (oneBatchFile 20 [50, 48] 205) else none⟩ =
      ⟨ReplayRes.fail (ErrKind.openFail Family.vlogF 2),
       [(Family.vlogF, 1), (Family.walF, 1), (Family.vlogF, 2)],
       [(tE 10 20 101, emptyVP), (tE 10 20 203, ⟨1, 20, 16⟩)]⟩ := by
  decide

/-- C4: the claim reads: when the loop exits with truncate_needed set,
replay terminates normally and never aborts the process.  Evaluating
replay on a WAL batch with commit_ts 10 against a vlog batch with
commit_ts 20: the mismatch sets truncateNeeded, the loop breaks, and
the code reaches panic("Sup implement this guy.")
(src/log_manager.go:443-445), aborting the process instead of
returning. -/
theorem c4_truncate_panic_eval :
    replay 10 ⟨[1], [1], ⟨0, 0, 0⟩⟩
      ⟨fun f => if f = 1 then some (oneBatchFile 10 [49, 48] 103) else none,
       fun f => if f = 1 then some (oneBatchFile 20 [50, 48] 204) else none⟩ =
      ⟨ReplayRes.panicked, [(Family.vlogF, 1), (Family.walF, 1)], []⟩ := by
  decide

/-- First data key of the C6 scenario (id 1, created at 5). -/
def dkA : DataKey := ⟨1, [1], 5, []⟩

/-- Second data key of the C6 scenario (id 2, created at 6). -/
def dkB : DataKey := ⟨2, [2], 6, []⟩

/-- An in-memory registry holding keys 1 and 2 with no storage key, whose
map traversal happens to visit id 2 before id 1 (Go map order is
unspecified). -/
def regC6 : KeyRegistry := ⟨[(2, dkB), (1, dkA)], 6, 2, []⟩

/-- A 16-byte zero IV. -/
def ivZ : List Nat := List.replicate 16 0

/-- Registry file produced by rewriting regC6. -/
def fileC6 : RegFile := ⟨ivZ, sanityText, [dkB, dkA]⟩

/-- Registry obtained by re-opening fileC6. -/
def regC6After : KeyRegistry := ⟨[(2, dkA)], 6, 2, []⟩

/-- C6: the claim reads: rewriting a registry and re-opening the file
yields the same id set and materials.  Evaluating rewrite-then-open on a
registry holding keys 1 and 2 whose map traversal visits id 2 first:
buildKeyRegistry stores each record under the running maximum
kr.nextKeyID instead of under dataKey.KeyID (src/key_registry.go:144),
so the record of key 1 lands under id 2, key 2's material is lost and
id 1 disappears. -/
theorem c6_roundtrip_eval :
    RewriteRegistry regC6 [] ivZ = some fileC6 ∧
    buildKeyRegistry fileC6 [] = Except.ok regC6After ∧
    assocLookup regC6.dataKeys 1 = some dkA ∧
    assocLookup regC6After.dataKeys 1 = none ∧
    assocLookup regC6.dataKeys 2 = some dkB ∧
    assocLookup regC6After.dataKeys 2 = some dkA := by
  decide

/-- A 24-byte (AES-192) storage key. -/
def sk24 : List Nat := List.replicate 24 7

/-- A fresh 16-byte IV for the C7 scenarios. -/
def iv16 : List Nat := List.replicate 16 1

/-- The random byte stream rand.Read draws from in the C7 scenarios. -/
def rnd32 : List Nat := List.replicate 32 5

/-- An empty registry configured with the 24-byte storage key, past its
rotation deadline at time 864000. -/
def kr24 : KeyRegistry := ⟨[], 0, 0, sk24⟩

/-- The key getDataKey creates in that state: its material has 24 bytes,
the storage key's length, not 16. -/
def dk24 : DataKey := ⟨1, List.replicate 24 5, 864000, iv16⟩

/-- C7 counterexample: the claim reads: on rotation a fresh 16-byte
material is drawn.  The code draws len(storageKey) bytes
(src/key_registry.go:228); with a legal 24-byte storage key the created
key's material has 24 bytes, so the claim as stated is false. -/
theorem c7_material_length_counterexample :
    (getDataKey kr24 [] 864000 iv16 rnd32).res = Except.ok (some dk24) ∧
    dk24.data.length ≠ 16 := by
  decide

/-- C7 as amended: getDataKey returns the key recorded under the newest
id unchanged-state when now - last_created is within the 10-day rotation
period; otherwise it creates a key with id = next_id + 1, fresh material
of the storage key's length, the fresh IV, created_at = now, appends it
encrypted to the registry file with fsync, records it decrypted in
memory and returns it decrypted (src/key_registry.go:216-254). -/
theorem c7_rotation_behavior (kr : KeyRegistry) (file : List (DataKey × Bool))
    (now : Int) (ivNew rnd : List Nat)
    (hsk : kr.storageKey ≠ [])
    (hlen : kr.storageKey.length = 16 ∨ kr.storageKey.length = 24 ∨
      kr.storageKey.length = 32) :
    (now - kr.lastCreated < 864000 →
      getDataKey kr file now ivNew rnd =
        ⟨Except.ok (assocLookup kr.dataKeys kr.nextKeyID), kr, file⟩) ∧
    (864000 ≤ now - kr.lastCreated →
      getDataKey kr file now ivNew rnd =
        ⟨Except.ok (some ⟨kr.nextKeyID + 1, rnd.take kr.storageKey.length, now, ivNew⟩),
         { kr with nextKeyID := kr.nextKeyID + 1, lastCreated := now,
                   dataKeys := assocInsert kr.dataKeys (kr.nextKeyID + 1)
                     ⟨kr.nextKeyID + 1, rnd.take kr.storageKey.length, now, ivNew⟩ },
         file ++ [(⟨kr.nextKeyID + 1,
             (xorBlock kr.storageKey ivNew (rnd.take kr.storageKey.length)).getD [],
             now, ivNew⟩, true)]⟩) := by
  constructor
  · intro h
    simp [getDataKey, hsk, h]
  · intro h
    have hnot : ¬ now - kr.lastCreated < 864000 := not_lt.mpr h
    have hx : xorBlock kr.storageKey ivNew (rnd.take kr.storageKey.length) =
        some (List.zipWith Nat.xor (rnd.take kr.storageKey.length)
          (keystream kr.storageKey ivNew (rnd.take kr.storageKey.length).length)) := by
      simp [xorBlock, hlen]
    simp [getDataKey, hsk, hnot, hx]

/-- A 16-byte storage key for the C7 witness. -/
def skW : List Nat := List.replicate 16 9

/-- A registry with one key (id 1, created at time 100) under skW. -/
def krW : KeyRegistry :=
  ⟨[(1, ⟨1, List.replicate 16 3, 100, List.replicate 16 2⟩)], 100, 1, skW⟩

/-- A fresh IV for the C7 witness. -/
def ivW : List Nat := List.replicate 16 4

/-- The random stream for the C7 witness. -/
def rndW : List Nat := List.replicate 40 8

/-- Witness for the amended C7: at time 101 (within the period) the
stored newest key is returned with the state untouched; at time 864100
(exactly the deadline) a fresh key with id 2 is created, persisted with
fsync and returned decrypted. -/
theorem c7_rotation_behavior_witness :
    (getDataKey krW [] 101 ivW rndW =
      ⟨Except.ok (assocLookup krW.dataKeys krW.nextKeyID), krW, []⟩) ∧
    (getDataKey krW [] 864100 ivW rndW =
      ⟨Except.ok (some ⟨krW.nextKeyID + 1, rndW.take krW.storageKey.length, 864100, ivW⟩),
       { krW with nextKeyID := krW.nextKeyID + 1, lastCreated := 864100,
                  dataKeys := assocInsert krW.dataKeys (krW.nextKeyID + 1)
                    ⟨krW.nextKeyID + 1, rndW.take krW.storageKey.length, 864100, ivW⟩ },
       [] ++ [(⟨krW.nextKeyID + 1,
           (xorBlock krW.storageKey ivW (rndW.take krW.storageKey.length)).getD [],
           864100, ivW⟩, true)]⟩) :=
  ⟨(c7_rotation_behavior krW [] 101 ivW rndW (by decide) (by decide)).1 (by decide),
   (c7_rotation_behavior krW [] 864100 ivW rndW (by decide) (by decide)).2 (by decide)⟩
